import Mathlib

/-!
Verification of the movies_app catalog (Django application) against its
specification. The data model (models.py), the request handlers (views.py)
and the URL configuration (urls.py) are shallowly embedded: database tables
become lists of records, handlers become pure functions from the relevant
tables to an HTTP response plus the updated tables, and the framework
mixin dispatch (LoginRequiredMixin, UserPassesTestMixin) is inlined in the
order the method resolution order runs it.
-/

namespace MoviesApp

/-- An account row of django.contrib.auth.models.User: primary key,
username, and the staff flag used by the comment moderation check. -/
structure User where
  id : Nat
  username : String
  is_staff : Bool
deriving DecidableEq, Repr

/-- models.Category: name and slug, both unique. -/
structure Category where
  id : Nat
  name : String
  slug : String
deriving DecidableEq, Repr

/-- models.Profile: one-to-one with User. The avatar field is kept as a
path string; it plays no role in any property below. -/
structure Profile where
  user : Nat
  bio : String
deriving DecidableEq, Repr

/-- models.Movie. The DecimalField rating (max_digits 3, decimal_places 1)
is embedded exactly as an integer count of tenths, so 8.8 is 88 and the
validator bounds 0.0 and 10.0 are 0 and 100. category is the nullable
foreign key to Category (SET_NULL), created_by the foreign key to User
(CASCADE). -/
structure Movie where
  id : Nat
  title : String
  slug : String
  poster : String
  description : String
  release_date : Int
  actors : String
  ratingTenths : Int
  category : Option Nat
  trailer_url : String
  created_by : Nat
  created_at : Nat
deriving DecidableEq, Repr

/-- models.Comment: foreign keys to Movie and User, both CASCADE. -/
structure Comment where
  id : Nat
  movie : Nat
  user : Nat
  content : String
  created_at : Nat
deriving DecidableEq, Repr

/-- models.Favorite: foreign keys to User and Movie, both CASCADE, with
unique_together (user, movie). -/
structure Favorite where
  user : Nat
  movie : Nat
  created_at : Nat
deriving DecidableEq, Repr

/-- The outcomes a handler can produce: the login redirect issued by
LoginRequiredMixin, the PermissionDenied (HTTP 403) raised by
UserPassesTestMixin for an authenticated actor, the 404 of
get_object_or_404, a redirect carrying a messages.error notice, a redirect
carrying a messages.success or messages.info notice, and a form
re-rendered with validation errors. -/
inductive HttpResponse where
  | redirectToLogin : HttpResponse
  | forbidden : HttpResponse
  | notFound : HttpResponse
  | redirectNotice (url : String) (message : String) : HttpResponse
  | redirectSuccess (url : String) (message : String) : HttpResponse
  | formWithErrors : HttpResponse
deriving DecidableEq, Repr

/-- True exactly on the redirect-with-error-notice outcome (the shape the
spec describes for a failed permission check). -/
def isRedirectNotice : HttpResponse → Bool
  | HttpResponse.redirectNotice _ _ => true
  | _ => false

/-- Movie.get_absolute_url: reverse of the movie_detail route. -/
def movieDetailUrl (m : Movie) : String := "/movie/" ++ m.slug ++ "/"

/-! ## Favorites: toggle_favorite (views.py) -/

/-- Favorite.objects.filter(user=u, movie=m).exists(). -/
def favExists (u m : Nat) (favs : List Favorite) : Bool :=
  favs.any fun f => f.user == u && f.movie == m

/-- Favorite.objects.get_or_create(user=u, movie=m): returns the table and
the created flag; a new row carries the request timestamp t. -/
def getOrCreateFavorite (u m t : Nat) (favs : List Favorite) :
    List Favorite × Bool :=
  if favExists u m favs then (favs, false)
  else ({ user := u, movie := m, created_at := t } :: favs, true)

/-- toggle_favorite (views.py): get_or_create, and when the row already
existed delete it. Under unique_together (user, movie) at most one row
holds the pair, so deleting the found row is removing every row with the
pair. Returns the table and the outcome message tag. -/
def toggleFavorite (u m t : Nat) (favs : List Favorite) :
    List Favorite × String :=
  let r := getOrCreateFavorite u m t favs
  if r.2 then (r.1, "added")
  else (r.1.filter fun f => !(f.user == u && f.movie == m), "removed")

theorem favExists_iff (u m : Nat) (favs : List Favorite) :
    favExists u m favs = true ↔ ∃ f, f ∈ favs ∧ f.user = u ∧ f.movie = m := by
  simp [favExists, List.any_eq_true]

theorem favExists_cons (u m t u2 m2 : Nat) (favs : List Favorite) :
    favExists u2 m2 ({ user := u, movie := m, created_at := t } :: favs) =
      ((u == u2 && m == m2) || favExists u2 m2 favs) := by
  simp [favExists]

theorem favExists_filter_self (u m : Nat) (favs : List Favorite) :
    favExists u m (favs.filter fun f => !(f.user == u && f.movie == m)) = false := by
  rw [← Bool.not_eq_true, favExists_iff]
  rintro ⟨f, hf, hu, hm⟩
  rcases List.mem_filter.mp hf with ⟨-, hp⟩
  simp [hu, hm] at hp

theorem favExists_filter_ne (u m u2 m2 : Nat) (favs : List Favorite)
    (h : u2 ≠ u ∨ m2 ≠ m) :
    favExists u2 m2 (favs.filter fun f => !(f.user == u && f.movie == m)) =
      favExists u2 m2 favs := by
  rw [Bool.eq_iff_iff, favExists_iff, favExists_iff]
  constructor
  · rintro ⟨f, hf, hu, hm⟩
    exact ⟨f, (List.mem_filter.mp hf).1, hu, hm⟩
  · rintro ⟨f, hf, hu, hm⟩
    refine ⟨f, List.mem_filter.mpr ⟨hf, ?_⟩, hu, hm⟩
    subst hu
    subst hm
    rcases h with h | h <;> simp [h]

theorem filter_eq_self_of_not_fav (u m : Nat) (favs : List Favorite)
    (h : favExists u m favs = false) :
    favs.filter (fun f => !(f.user == u && f.movie == m)) = favs := by
  rw [List.filter_eq_self]
  intro f hf
  cases hq : (f.user == u && f.movie == m) with
  | false => simp [hq]
  | true =>
    exfalso
    rw [← Bool.not_eq_true, favExists_iff] at h
    exact h ⟨f, hf, by simpa using hq⟩

theorem toggleFavorite_of_exists (u m t : Nat) (favs : List Favorite)
    (h : favExists u m favs = true) :
    toggleFavorite u m t favs =
      (favs.filter (fun f => !(f.user == u && f.movie == m)), "removed") := by
  simp [toggleFavorite, getOrCreateFavorite, h]

theorem toggleFavorite_of_not_exists (u m t : Nat) (favs : List Favorite)
    (h : favExists u m favs = false) :
    toggleFavorite u m t favs =
      ({ user := u, movie := m, created_at := t } :: favs, "added") := by
  simp [toggleFavorite, getOrCreateFavorite, h]

/-- Claim C1: toggle_favorite deletes the Favorite(u, m) row when one
exists (outcome "removed") and creates one when none exists (outcome
"added"), and toggling twice in succession for the same pair leaves the
favorite set (which pairs are favorited) equal to the original. -/
theorem toggleFavorite_spec (u m t t2 : Nat) (favs : List Favorite) :
    (toggleFavorite u m t favs).2 =
      (if favExists u m favs then "removed" else "added") ∧
    favExists u m (toggleFavorite u m t favs).1 = !(favExists u m favs) ∧
    (∀ u2 m2, favExists u2 m2
        (toggleFavorite u m t2 (toggleFavorite u m t favs).1).1 =
      favExists u2 m2 favs) := by
  cases hfe : favExists u m favs with
  | true =>
    rw [toggleFavorite_of_exists u m t favs hfe]
    have h2 := favExists_filter_self u m favs
    refine ⟨rfl, by rw [h2]; rfl, ?_⟩
    intro u2 m2
    rw [toggleFavorite_of_not_exists u m t2 _ h2, favExists_cons]
    by_cases hc : u2 = u ∧ m2 = m
    · obtain ⟨h3, h4⟩ := hc
      subst h3
      subst h4
      simp [hfe]
    · rw [not_and_or] at hc
      rw [favExists_filter_ne u m u2 m2 favs hc]
      have h5 : (u == u2 && m == m2) = false := by
        rcases hc with h | h
        · simp [(Ne.symm h)]
        · simp [(Ne.symm h)]
      rw [h5, Bool.false_or]
  | false =>
    rw [toggleFavorite_of_not_exists u m t favs hfe]
    have hmem : favExists u m
        ({ user := u, movie := m, created_at := t } :: favs) = true := by
      rw [favExists_cons]
      simp
    refine ⟨rfl, by rw [hmem]; rfl, ?_⟩
    intro u2 m2
    rw [toggleFavorite_of_exists u m t2 _ hmem, List.filter_cons,
      if_neg (by simp), filter_eq_self_of_not_fav u m favs hfe]

/-! ## Movie form data, validation, and slug derivation -/

/-- The fields exposed by MovieCreateView and MovieUpdateView (the explicit
fields list in views.py); slug, created_by and the timestamps are not on
the form. -/
structure MovieSubmission where
  title : String
  poster : String
  description : String
  release_date : Int
  actors : String
  ratingTenths : Int
  category : Option Nat
  trailer_url : String
deriving DecidableEq, Repr

/-- The validators on Movie.rating: MinValueValidator 0.0 and
MaxValueValidator 10.0, plus the DecimalField digit budget (max_digits 3,
decimal_places 1 allows magnitudes below 100.0, that is below 1000
tenths). -/
def ratingFieldValid (r : Int) : Bool :=
  decide (r.natAbs < 1000) && decide (0 ≤ r) && decide (r ≤ 100)

/-- The ModelForm validation run by the create and update views: the
required character fields are non-empty, the title fits its max_length
255, and the rating passes its validators. -/
def validSubmission (s : MovieSubmission) : Bool :=
  s.title != "" && decide (s.title.length ≤ 255) && s.poster != "" &&
    s.description != "" && s.actors != "" && ratingFieldValid s.ratingTenths

/-- One step of django.utils.text.slugify collapsing (ASCII input): each
run of spaces and hyphens becomes a single hyphen. -/
def collapseDash : List Char → List Char
  | [] => []
  | c :: cs =>
    let rest := collapseDash cs
    if c = ' ' || c = '-' then
      match rest with
      | '-' :: _ => rest
      | _ => '-' :: rest
    else c :: rest

/-- django.utils.text.slugify restricted to ASCII input: lowercase, drop
every character that is not alphanumeric, underscore, space or hyphen,
collapse runs of spaces and hyphens to one hyphen, and strip leading and
trailing hyphens and underscores. -/
def slugify (s : String) : String :=
  let kept := s.toLower.data.filter fun c =>
    c.isAlphanum || c == '_' || c == ' ' || c == '-'
  let stripped :=
    (((collapseDash kept).dropWhile (fun c => c == '-' || c == '_')).reverse.dropWhile
      (fun c => c == '-' || c == '_')).reverse
  String.mk stripped

/-! ## Movie create, update, delete (views.py) -/

/-- MovieOwnerMixin.test_func: the object was created by the requesting
user. -/
def movieOwnerTest (m : Movie) (u : User) : Bool := m.created_by == u.id

/-- MovieCreateView: LoginRequiredMixin sends an anonymous actor to the
login page; a valid submission is saved with created_by the acting user
and, the form having no slug field, the slug derived from the title and
truncated to 280 characters; an invalid submission re-renders the form
with its field errors and writes nothing. newId and now stand for the
primary key and timestamp the database assigns. -/
def movieCreateRun (actor : Option User) (sub : MovieSubmission)
    (newId now : Nat) (movies : List Movie) : HttpResponse × List Movie :=
  match actor with
  | none => (HttpResponse.redirectToLogin, movies)
  | some u =>
    if validSubmission sub then
      let m : Movie :=
        { id := newId, title := sub.title, slug := (slugify sub.title).take 280,
          poster := sub.poster, description := sub.description,
          release_date := sub.release_date, actors := sub.actors,
          ratingTenths := sub.ratingTenths, category := sub.category,
          trailer_url := sub.trailer_url, created_by := u.id, created_at := now }
      (HttpResponse.redirectSuccess (movieDetailUrl m) "Movie added successfully.",
        m :: movies)
    else (HttpResponse.formWithErrors, movies)

/-- The update a valid MovieUpdateView submission applies: every form
field is overwritten, while slug, created_by, id and created_at are not on
the form and stay. -/
def applyUpdate (sub : MovieSubmission) (m : Movie) : Movie :=
  { m with
    title := sub.title,
    poster := sub.poster,
    description := sub.description,
    release_date := sub.release_date,
    actors := sub.actors,
    ratingTenths := sub.ratingTenths,
    category := sub.category,
    trailer_url := sub.trailer_url }

/-- MovieUpdateView with its mixins in method resolution order:
LoginRequiredMixin redirects an anonymous actor to login; the object
lookup by slug 404s on an unknown slug; MovieOwnerMixin
(UserPassesTestMixin) raises PermissionDenied for an authenticated
non-owner; then the form validates and either saves or re-renders with
errors. -/
def movieUpdateRun (actor : Option User) (slug : String)
    (sub : MovieSubmission) (movies : List Movie) :
    HttpResponse × List Movie :=
  match actor with
  | none => (HttpResponse.redirectToLogin, movies)
  | some u =>
    match movies.find? (fun m => m.slug == slug) with
    | none => (HttpResponse.notFound, movies)
    | some m =>
      if movieOwnerTest m u then
        if validSubmission sub then
          (HttpResponse.redirectSuccess (movieDetailUrl (applyUpdate sub m))
              "Movie updated successfully.",
            movies.map fun x => if x.id == m.id then applyUpdate sub x else x)
        else (HttpResponse.formWithErrors, movies)
      else (HttpResponse.forbidden, movies)

/-- MovieDeleteView with its mixins in method resolution order, and the
on_delete=CASCADE rules of Comment.movie and Favorite.movie: deleting the
movie also deletes every comment and favorite referencing it. On success
it redirects to the movie list (success_url). -/
def movieDeleteRun (actor : Option User) (slug : String)
    (movies : List Movie) (comments : List Comment)
    (favorites : List Favorite) :
    HttpResponse × List Movie × List Comment × List Favorite :=
  match actor with
  | none => (HttpResponse.redirectToLogin, movies, comments, favorites)
  | some u =>
    match movies.find? (fun m => m.slug == slug) with
    | none => (HttpResponse.notFound, movies, comments, favorites)
    | some m =>
      if movieOwnerTest m u then
        (HttpResponse.redirectSuccess "/movies/" "Movie deleted successfully.",
          movies.filter (fun x => x.id != m.id),
          comments.filter (fun c => c.movie != m.id),
          favorites.filter (fun f => f.movie != m.id))
      else (HttpResponse.forbidden, movies, comments, favorites)

/-! ## Concrete fixtures used by witnesses and counterexamples -/

def alice : User := { id := 1, username := "alice", is_staff := false }

def bob : User := { id := 2, username := "bob", is_staff := false }

def inceptionMovie : Movie :=
  { id := 1, title := "Inception", slug := "inception", poster := "p.jpg",
    description := "A dream heist.", release_date := 0,
    actors := "Leonardo DiCaprio", ratingTenths := 88, category := none,
    trailer_url := "", created_by := 1, created_at := 10 }

def demoSub : MovieSubmission :=
  { title := "Inception", poster := "p.jpg", description := "A dream heist.",
    release_date := 0, actors := "Leonardo DiCaprio", ratingTenths := 88,
    category := none, trailer_url := "" }

def badRatingSub : MovieSubmission :=
  { title := "Overrated", poster := "o.jpg", description := "d",
    release_date := 0, actors := "a", ratingTenths := 101,
    category := none, trailer_url := "" }

def demoComment : Comment :=
  { id := 1, movie := 1, user := 1, content := "Great movie.", created_at := 5 }

def demoFavorite : Favorite := { user := 2, movie := 1, created_at := 6 }

/-- Claim C2 as stated is false at a concrete input: for the stored movie
with slug inception created by user 1, the authenticated non-owner bob
requesting update or delete receives PermissionDenied (HTTP 403), and an
anonymous actor is redirected to the login page; neither outcome is a
redirect to the resource page carrying an error notice, which is what the
claim promises for every rejected actor. -/
theorem movie_mutation_rejection_is_not_redirect_notice :
    (movieUpdateRun (some bob) "inception" demoSub [inceptionMovie]).1 =
      HttpResponse.forbidden ∧
    isRedirectNotice
      (movieUpdateRun (some bob) "inception" demoSub [inceptionMovie]).1 = false ∧
    (movieDeleteRun (some bob) "inception" [inceptionMovie] [] []).1 =
      HttpResponse.forbidden ∧
    isRedirectNotice
      (movieDeleteRun (some bob) "inception" [inceptionMovie] [] []).1 = false ∧
    (movieUpdateRun none "inception" demoSub [inceptionMovie]).1 =
      HttpResponse.redirectToLogin ∧
    isRedirectNotice
      (movieUpdateRun none "inception" demoSub [inceptionMovie]).1 = false := by
  decide

/-- Claim C2 (amended): a movie update or delete mutates state only when
the acting user equals the target movie creator; an unauthenticated actor
is redirected to the login page and an authenticated non-owner is rejected
with a permission error (HTTP 403, not a redirect), and in both rejection
cases no part of the store is mutated. -/
theorem movie_mutation_requires_owner (actor : Option User) (slug : String)
    (sub : MovieSubmission) (movies : List Movie) (comments : List Comment)
    (favorites : List Favorite) (m : Movie)
    (hm : movies.find? (fun x => x.slug == slug) = some m)
    (hno : ∀ u, actor = some u → m.created_by ≠ u.id) :
    (movieUpdateRun actor slug sub movies).2 = movies ∧
    (movieDeleteRun actor slug movies comments favorites).2 =
      (movies, comments, favorites) ∧
    (movieUpdateRun actor slug sub movies).1 =
      (match actor with
       | none => HttpResponse.redirectToLogin
       | some _ => HttpResponse.forbidden) ∧
    (movieDeleteRun actor slug movies comments favorites).1 =
      (match actor with
       | none => HttpResponse.redirectToLogin
       | some _ => HttpResponse.forbidden) := by
  cases actor with
  | none => exact ⟨rfl, rfl, rfl, rfl⟩
  | some u =>
    have hne : (m.created_by == u.id) = false := by
      simpa using hno u rfl
    simp [movieUpdateRun, movieDeleteRun, hm, movieOwnerTest, hne]

theorem movie_mutation_requires_owner_witness :
    (movieUpdateRun (some bob) "inception" demoSub [inceptionMovie]).2 =
      [inceptionMovie] ∧
    (movieDeleteRun (some bob) "inception" [inceptionMovie] [demoComment]
        [demoFavorite]).2 = ([inceptionMovie], [demoComment], [demoFavorite]) ∧
    (movieUpdateRun (some bob) "inception" demoSub [inceptionMovie]).1 =
      HttpResponse.forbidden ∧
    (movieDeleteRun (some bob) "inception" [inceptionMovie] [demoComment]
        [demoFavorite]).1 = HttpResponse.forbidden :=
  movie_mutation_requires_owner (some bob) "inception" demoSub [inceptionMovie]
    [demoComment] [demoFavorite] inceptionMovie (by decide)
    (by intro u hu; injection hu with h; subst h; decide)

/-! ## Comment deletion (delete_comment in views.py) -/

/-- delete_comment (views.py): look the comment up by primary key (404 on
an unknown id), read its movie for the redirect target, and when the
acting user is neither the author nor staff redirect back with an error
notice leaving the table alone; otherwise delete the comment and redirect
back with a success notice. login_required has already supplied an
authenticated actor. -/
def deleteCommentRun (actor : User) (pk : Nat) (movies : List Movie)
    (comments : List Comment) : HttpResponse × List Comment :=
  match comments.find? (fun c => c.id == pk) with
  | none => (HttpResponse.notFound, comments)
  | some c =>
    let url := match movies.find? (fun m => m.id == c.movie) with
      | some m => movieDetailUrl m
      | none => ""
    if c.user != actor.id && !actor.is_staff then
      (HttpResponse.redirectNotice url
          "You do not have permission to delete this comment.", comments)
    else
      (HttpResponse.redirectSuccess url "Comment deleted.",
        comments.filter fun x => x.id != pk)

/-- Claim C3: for an existing comment and an authenticated actor,
delete_comment removes the comment exactly when the actor is its author or
holds the staff role; otherwise it answers with a permission-error notice
and the comment is still present; comments with a different id are kept in
either case. -/
theorem deleteCommentRun_spec (actor : User) (pk : Nat) (movies : List Movie)
    (comments : List Comment) (c : Comment)
    (hc : comments.find? (fun x => x.id == pk) = some c) :
    ((c.user = actor.id ∨ actor.is_staff = true) →
      (deleteCommentRun actor pk movies comments).2 =
        comments.filter (fun x => x.id != pk) ∧
      c ∉ (deleteCommentRun actor pk movies comments).2 ∧
      isRedirectNotice (deleteCommentRun actor pk movies comments).1 = false) ∧
    (¬(c.user = actor.id ∨ actor.is_staff = true) →
      (deleteCommentRun actor pk movies comments).2 = comments ∧
      c ∈ (deleteCommentRun actor pk movies comments).2 ∧
      isRedirectNotice (deleteCommentRun actor pk movies comments).1 = true) ∧
    (∀ x ∈ comments, x.id ≠ pk →
      x ∈ (deleteCommentRun actor pk movies comments).2) := by
  have hcid : c.id = pk := by simpa using List.find?_some hc
  have hcmem : c ∈ comments := List.mem_of_find?_eq_some hc
  refine ⟨?_, ?_, ?_⟩
  · intro hallow
    have hcond : (c.user != actor.id && !actor.is_staff) = false := by
      rcases hallow with h | h
      · simp [h]
      · simp [h]
    refine ⟨?_, ?_, ?_⟩
    · simp [deleteCommentRun, hc, hcond]
    · simp only [deleteCommentRun, hc, hcond]
      intro hmem
      rcases List.mem_filter.mp hmem with ⟨-, hne⟩
      rw [bne_iff_ne] at hne
      exact hne hcid
    · simp [deleteCommentRun, hc, hcond, isRedirectNotice]
  · intro hdeny
    rw [not_or] at hdeny
    have hcond : (c.user != actor.id && !actor.is_staff) = true := by
      rcases hdeny with ⟨h1, h2⟩
      simp [h1, h2]
    refine ⟨?_, ?_, ?_⟩
    · simp [deleteCommentRun, hc, hcond]
    · simpa [deleteCommentRun, hc, hcond] using hcmem
    · simp [deleteCommentRun, hc, hcond, isRedirectNotice]
  · intro x hx hne
    cases hcond : (c.user != actor.id && !actor.is_staff) with
    | true => simpa [deleteCommentRun, hc, hcond] using hx
    | false =>
      simp only [deleteCommentRun, hc, hcond]
      exact List.mem_filter.mpr ⟨hx, by simpa using hne⟩

theorem deleteCommentRun_spec_witness :
    ((demoComment.user = bob.id ∨ bob.is_staff = true) →
      (deleteCommentRun bob 1 [inceptionMovie] [demoComment]).2 =
        [demoComment].filter (fun x => x.id != 1) ∧
      demoComment ∉ (deleteCommentRun bob 1 [inceptionMovie] [demoComment]).2 ∧
      isRedirectNotice
        (deleteCommentRun bob 1 [inceptionMovie] [demoComment]).1 = false) ∧
    (¬(demoComment.user = bob.id ∨ bob.is_staff = true) →
      (deleteCommentRun bob 1 [inceptionMovie] [demoComment]).2 = [demoComment] ∧
      demoComment ∈ (deleteCommentRun bob 1 [inceptionMovie] [demoComment]).2 ∧
      isRedirectNotice
        (deleteCommentRun bob 1 [inceptionMovie] [demoComment]).1 = true) ∧
    (∀ x ∈ [demoComment], x.id ≠ 1 →
      x ∈ (deleteCommentRun bob 1 [inceptionMovie] [demoComment]).2) :=
  deleteCommentRun_spec bob 1 [inceptionMovie] [demoComment] demoComment
    (by decide)

/-! ## Profile auto-creation signal (models.py) -/

/-- The post_save receiver create_or_update_user_profile (models.py): on a
freshly created user it creates a Profile row; on a save of an existing
user it reads instance.profile, the reverse one-to-one accessor, which
raises RelatedObjectDoesNotExist when the user has no Profile row, and
otherwise re-saves the found profile (no functional change). -/
def create_or_update_user_profile (created : Bool) (u : Nat)
    (profiles : List Profile) : Except String (List Profile) :=
  if created then Except.ok ({ user := u, bio := "" } :: profiles)
  else
    match profiles.find? (fun p => p.user == u) with
    | some _ => Except.ok profiles
    | none => Except.error "RelatedObjectDoesNotExist"

/-- Claim C4 evaluated: creating user 7 in an empty store auto-creates
exactly the one profile for user 7, but saving the already-existing user 7
while it has no Profile row raises RelatedObjectDoesNotExist instead of
succeeding, contradicting the claim that the re-save must not fail when
the profile is missing. -/
theorem create_or_update_user_profile_missing_profile_fails :
    create_or_update_user_profile true 7 [] =
      Except.ok [{ user := 7, bio := "" }] ∧
    create_or_update_user_profile false 7 [] =
      Except.error "RelatedObjectDoesNotExist" := by
  exact ⟨rfl, rfl⟩

/-! ## URL configuration (urls.py) -/

/-- One segment of a django.urls.path pattern: a literal, or one of the
slug, str and int path converters. -/
inductive PathSeg where
  | lit (s : String)
  | slugParam
  | strParam
  | intParam
deriving DecidableEq, Repr

/-- Whether a request path segment matches a pattern segment: slug is a
non-empty run of letters, digits, hyphen and underscore; str is any
non-empty segment (slashes were consumed by splitting); int is a non-empty
run of digits. -/
def segMatches : PathSeg → String → Bool
  | PathSeg.lit s, x => s == x
  | PathSeg.slugParam, x =>
      x != "" && x.data.all fun c => c.isAlphanum || c == '_' || c == '-'
  | PathSeg.strParam, x => x != ""
  | PathSeg.intParam, x => x != "" && x.data.all Char.isDigit

/-- A pattern matches a request path when they have the same number of
segments and each segment matches in place. -/
def patternMatches (p : List PathSeg) (xs : List String) : Bool :=
  p.length == xs.length && (List.zip p xs).all fun z => segMatches z.1 z.2

/-- django.urls resolution over an ordered pattern list: the first
matching pattern wins; yields the matched route name. -/
def resolvePath (pats : List (List PathSeg × String)) (xs : List String) :
    Option String :=
  (pats.find? fun p => patternMatches p.1 xs).map Prod.snd

/-- Splitting a character list at every slash. -/
def splitSlashAux (cur : List Char) : List Char → List (List Char)
  | [] => [cur.reverse]
  | c :: cs =>
    if c = '/' then cur.reverse :: splitSlashAux [] cs
    else splitSlashAux (c :: cur) cs

/-- Splitting a request path into segments: split at every slash, then
drop the empty segment of the leading slash and the empty segment of the
trailing slash. -/
def splitPath (s : String) : List String :=
  let parts := (splitSlashAux [] s.data).map List.asString
  let parts := if parts.head? = some "" then parts.tail else parts
  if parts.getLast? = some "" then parts.dropLast else parts

/-- urlpatterns (urls.py), in source order, each with its route name. -/
def urlpatterns : List (List PathSeg × String) :=
  [([], "login"),
   ([PathSeg.lit "register"], "register"),
   ([PathSeg.lit "logout"], "logout"),
   ([PathSeg.lit "movies"], "movie_list"),
   ([PathSeg.lit "movie", PathSeg.slugParam], "movie_detail"),
   ([PathSeg.lit "movie", PathSeg.lit "add"], "movie_create"),
   ([PathSeg.lit "movie", PathSeg.slugParam, PathSeg.lit "edit"], "movie_update"),
   ([PathSeg.lit "movie", PathSeg.slugParam, PathSeg.lit "delete"], "movie_delete"),
   ([PathSeg.lit "category", PathSeg.slugParam], "movies_by_category"),
   ([PathSeg.lit "search"], "search_results"),
   ([PathSeg.lit "user", PathSeg.strParam], "user_movies"),
   ([PathSeg.lit "movie", PathSeg.slugParam, PathSeg.lit "comment",
      PathSeg.lit "add"], "add_comment"),
   ([PathSeg.lit "comment", PathSeg.intParam, PathSeg.lit "delete"],
      "delete_comment"),
   ([PathSeg.lit "movie", PathSeg.slugParam, PathSeg.lit "favorite"],
      "toggle_favorite"),
   ([PathSeg.lit "dashboard"], "dashboard")]

/-- Claim C5 evaluated: the request path /movie/add/ resolves to the
movie_detail route (MovieDetailView with slug add), not to the
movie_create route, because the pattern movie/slug/ is listed before
movie/add/ and the slug converter accepts the segment add; the route the
claim names is unreachable. -/
theorem movie_add_path_resolves_to_detail :
    resolvePath urlpatterns (splitPath "/movie/add/") = some "movie_detail" ∧
    resolvePath urlpatterns (splitPath "/movie/add/") ≠ some "movie_create" := by
  refine ⟨by decide, by decide⟩

/-! ## Rating bounds (Movie.rating validators) -/

theorem validSubmission_rating (s : MovieSubmission)
    (h : validSubmission s = true) :
    0 ≤ s.ratingTenths ∧ s.ratingTenths ≤ 100 := by
  simp [validSubmission, ratingFieldValid, Bool.and_eq_true] at h
  exact ⟨by tauto, by tauto⟩

theorem validSubmission_bad_rating (s : MovieSubmission)
    (h : s.ratingTenths = 101 ∨ s.ratingTenths = -1) :
    validSubmission s = false := by
  have hr : ratingFieldValid s.ratingTenths = false := by
    rcases h with h | h <;> rw [h] <;> decide
  simp [validSubmission, hr]

/-- Claim C6: every movie in a store whose ratings are within bounds keeps
that invariant across any create-movie or update-movie request, and a
submission whose rating is 10.1 (101 tenths) or -0.1 (-1 tenths) is
rejected as a validation error by the create view and by the update view
(reached here by the owner of the stored movie, the actor the update
dispatch lets through to validation), re-rendering the form with field
errors; under any actor such a submission creates or changes no record. -/
theorem rating_bounds_enforced (u : User)
    (sub : MovieSubmission) (newId now : Nat) (slug : String)
    (movies : List Movie) (m : Movie)
    (hinv : ∀ m2 ∈ movies, 0 ≤ m2.ratingTenths ∧ m2.ratingTenths ≤ 100)
    (hbad : sub.ratingTenths = 101 ∨ sub.ratingTenths = -1)
    (hm : movies.find? (fun x => x.slug == slug) = some m)
    (how : m.created_by = u.id) :
    (∀ sub2 a i n, ∀ m2 ∈ (movieCreateRun a sub2 i n movies).2,
      0 ≤ m2.ratingTenths ∧ m2.ratingTenths ≤ 100) ∧
    (∀ sub2 a s, ∀ m2 ∈ (movieUpdateRun a s sub2 movies).2,
      0 ≤ m2.ratingTenths ∧ m2.ratingTenths ≤ 100) ∧
    (movieCreateRun (some u) sub newId now movies).1 =
      HttpResponse.formWithErrors ∧
    (movieCreateRun (some u) sub newId now movies).2 = movies ∧
    (movieUpdateRun (some u) slug sub movies).1 =
      HttpResponse.formWithErrors ∧
    (∀ a, (movieUpdateRun a slug sub movies).2 = movies) := by
  have hvf : validSubmission sub = false := validSubmission_bad_rating sub hbad
  have ho : movieOwnerTest m u = true := by simp [movieOwnerTest, how]
  refine ⟨?_, ?_, ?_, ?_, ?_, ?_⟩
  · intro sub2 a i n m2 hmem
    cases a with
    | none => exact hinv m2 hmem
    | some u2 =>
      by_cases hv : validSubmission sub2 = true
      · simp only [movieCreateRun, hv, if_true] at hmem
        rcases List.mem_cons.mp hmem with rfl | hmem2
        · exact validSubmission_rating sub2 hv
        · exact hinv m2 hmem2
      · rw [Bool.not_eq_true] at hv
        simp only [movieCreateRun, hv, Bool.false_eq_true, if_false] at hmem
        exact hinv m2 hmem
  · intro sub2 a s m2 hmem
    cases a with
    | none => exact hinv m2 hmem
    | some u2 =>
      cases hf : movies.find? (fun x => x.slug == s) with
      | none => simp only [movieUpdateRun, hf] at hmem; exact hinv m2 hmem
      | some m0 =>
        by_cases ho2 : movieOwnerTest m0 u2 = true
        · by_cases hv : validSubmission sub2 = true
          · simp only [movieUpdateRun, hf, ho2, hv, if_true] at hmem
            rcases List.mem_map.mp hmem with ⟨x, hx, rfl⟩
            by_cases hid : (x.id == m0.id) = true
            · rw [if_pos hid]
              exact validSubmission_rating sub2 hv
            · rw [Bool.not_eq_true] at hid
              rw [if_neg (by simp [hid])]
              exact hinv x hx
          · rw [Bool.not_eq_true] at hv
            simp only [movieUpdateRun, hf, ho2, hv, Bool.false_eq_true,
              if_true, if_false] at hmem
            exact hinv m2 hmem
        · rw [Bool.not_eq_true] at ho2
          simp only [movieUpdateRun, hf, ho2, Bool.false_eq_true,
            if_false] at hmem
          exact hinv m2 hmem
  · simp [movieCreateRun, hvf]
  · simp [movieCreateRun, hvf]
  · simp [movieUpdateRun, hm, ho, hvf]
  · intro a
    cases a with
    | none => rfl
    | some u2 =>
      by_cases ho2 : movieOwnerTest m u2 = true
      · simp [movieUpdateRun, hm, ho2, hvf]
      · rw [Bool.not_eq_true] at ho2
        simp [movieUpdateRun, hm, ho2]

theorem rating_bounds_enforced_witness :
    (∀ sub2 a i n, ∀ m2 ∈ (movieCreateRun a sub2 i n [inceptionMovie]).2,
      0 ≤ m2.ratingTenths ∧ m2.ratingTenths ≤ 100) ∧
    (∀ sub2 a s, ∀ m2 ∈ (movieUpdateRun a s sub2 [inceptionMovie]).2,
      0 ≤ m2.ratingTenths ∧ m2.ratingTenths ≤ 100) ∧
    (movieCreateRun (some alice) badRatingSub 2 11 [inceptionMovie]).1 =
      HttpResponse.formWithErrors ∧
    (movieCreateRun (some alice) badRatingSub 2 11 [inceptionMovie]).2 =
      [inceptionMovie] ∧
    (movieUpdateRun (some alice) "inception" badRatingSub [inceptionMovie]).1 =
      HttpResponse.formWithErrors ∧
    (∀ a, (movieUpdateRun a "inception" badRatingSub [inceptionMovie]).2 =
      [inceptionMovie]) :=
  rating_bounds_enforced alice badRatingSub 2 11 "inception"
    [inceptionMovie] inceptionMovie (by decide) (Or.inl rfl) (by decide) rfl

/-! ## Search (SearchResultsView in views.py) -/

/-- Bool substring check used to embed the SQL icontains lookup: whether
the needle occurs contiguously in the haystack. -/
def listContains (needle : List Char) : List Char → Bool
  | [] => needle.isEmpty
  | c :: cs => needle.isPrefixOf (c :: cs) || listContains needle cs

/-- The characters of a string folded to lower case, the case folding the
icontains lookup applies to both sides. -/
def lowerData (s : String) : List Char := s.data.map Char.toLower

/-- The lookup field__icontains=q: q is a case-insensitive substring of
the field value. -/
def icontains (field q : String) : Bool :=
  listContains (lowerData q) (lowerData field)

/-- The Q filter of SearchResultsView.get_queryset: title, description or
actors contains the query, or the movie has a category whose name
contains the query; a movie whose category is null fails the category
disjunct, exactly as the SQL join does. -/
def movieMatchesQuery (cats : List Category) (q : String) (m : Movie) : Bool :=
  icontains m.title q || icontains m.description q || icontains m.actors q ||
    (match m.category with
     | none => false
     | some cid =>
       match cats.find? (fun c => c.id == cid) with
       | none => false
       | some c => icontains c.name q)

/-- SearchResultsView.get_queryset: the query string is
request.GET.get("q", ""), and the store is filtered by the Q expression;
on a store with no duplicate rows the filter already yields each matching
movie once, which is what distinct() guarantees. -/
def searchRun (cats : List Category) (movies : List Movie)
    (q : Option String) : List Movie :=
  movies.filter (movieMatchesQuery cats (q.getD ""))

/-- Modelled from the wording of the spec, for comparison with the code:
q is a case-insensitive substring of s. -/
def isCiSubstrOf (q s : String) : Prop := lowerData q <:+: lowerData s

/-- Modelled from the wording of the spec, for comparison with the code:
the union of the four match sets of the search description. -/
def specSearchMatch (cats : List Category) (q : String) (m : Movie) : Prop :=
  isCiSubstrOf q m.title ∨ isCiSubstrOf q m.description ∨
    isCiSubstrOf q m.actors ∨
    ∃ c ∈ cats, m.category = some c.id ∧ isCiSubstrOf q c.name

theorem listContains_iff (n h : List Char) :
    listContains n h = true ↔ n <:+: h := by
  induction h with
  | nil => simp [listContains, List.infix_nil, List.isEmpty_iff]
  | cons c cs ih =>
    rw [listContains, Bool.or_eq_true, List.isPrefixOf_iff_prefix, ih,
      List.infix_cons_iff]

theorem icontains_iff (s q : String) :
    icontains s q = true ↔ isCiSubstrOf q s :=
  listContains_iff _ _

theorem icontains_empty (s : String) : icontains s "" = true := by
  rw [icontains]
  have h0 : lowerData "" = [] := rfl
  rw [h0]
  exact (listContains_iff _ _).mpr List.nil_infix

theorem movieMatchesQuery_iff (cats : List Category) (q : String) (m : Movie)
    (hids : (cats.map Category.id).Nodup) :
    movieMatchesQuery cats q m = true ↔ specSearchMatch cats q m := by
  rw [movieMatchesQuery, specSearchMatch]
  simp only [Bool.or_eq_true, icontains_iff]
  rw [or_assoc, or_assoc]
  refine or_congr Iff.rfl (or_congr Iff.rfl (or_congr Iff.rfl ?_))
  cases hmc : m.category with
  | none => simp
  | some cid =>
    cases hfind : cats.find? (fun c => c.id == cid) with
    | none =>
      simp only [hfind, Bool.false_eq_true, false_iff]
      rintro ⟨c, hc, hceq, -⟩
      have hcid : c.id = cid := (Option.some.inj hceq).symm
      have := List.find?_eq_none.mp hfind c hc
      simp [hcid] at this
    | some c0 =>
      have hc0mem : c0 ∈ cats := List.mem_of_find?_eq_some hfind
      have hc0id : c0.id = cid := by simpa using List.find?_some hfind
      simp only [hfind]
      rw [icontains_iff]
      constructor
      · intro hsub
        exact ⟨c0, hc0mem, by rw [hc0id], hsub⟩
      · rintro ⟨c, hc, hceq, hsub⟩
        have hcid : c.id = cid := (Option.some.inj hceq).symm
        have hceq0 : c = c0 :=
          List.inj_on_of_nodup_map hids hc hc0mem (by rw [hcid, hc0id])
        rw [← hceq0]
        exact hsub

/-- Claim C7: for every query q, the search handler returns exactly the
movies for which q is a case-insensitive substring of the title,
description, actors text or category name (the union of the four match
sets), and on a duplicate-free store every matching movie appears once. -/
theorem searchRun_matches_spec (cats : List Category) (movies : List Movie)
    (q : String) (m : Movie) (hids : (cats.map Category.id).Nodup) :
    (m ∈ searchRun cats movies (some q) ↔
      m ∈ movies ∧ specSearchMatch cats q m) ∧
    (movies.Nodup → (searchRun cats movies (some q)).Nodup) := by
  constructor
  · rw [searchRun, List.mem_filter]
    exact and_congr Iff.rfl (movieMatchesQuery_iff cats q m hids)
  · intro h
    exact h.filter _

def darkComedy : Category := { id := 1, name := "Dark Comedy", slug := "dark-comedy" }

def darkKnight : Movie :=
  { id := 3, title := "The Dark Knight", slug := "the-dark-knight",
    poster := "dk.jpg", description := "Batman.", release_date := 0,
    actors := "Christian Bale", ratingTenths := 90, category := some 1,
    trailer_url := "", created_by := 1, created_at := 12 }

theorem searchRun_matches_spec_witness :
    (darkKnight ∈ searchRun [darkComedy] [darkKnight] (some "dark") ↔
      darkKnight ∈ [darkKnight] ∧ specSearchMatch [darkComedy] "dark" darkKnight) ∧
    ([darkKnight].Nodup → (searchRun [darkComedy] [darkKnight] (some "dark")).Nodup) :=
  searchRun_matches_spec [darkComedy] [darkKnight] "dark" darkKnight (by decide)

/-- Claim C10: with the query parameter absent (request.GET.get defaults
to the empty string) or equal to the empty string, the search returns
every movie in the store, the empty string being a substring of every
title. -/
theorem searchRun_empty_query (cats : List Category) (movies : List Movie) :
    searchRun cats movies none = movies ∧
    searchRun cats movies (some "") = movies := by
  have hall : ∀ m, movieMatchesQuery cats "" m = true := by
    intro m
    rw [movieMatchesQuery]
    rw [icontains_empty m.title]
    rfl
  constructor
  · rw [searchRun]
    exact List.filter_eq_self.mpr fun m _ => hall m
  · rw [searchRun]
    exact List.filter_eq_self.mpr fun m _ => hall m

/-! ## Category deletion (Movie.category on_delete=SET_NULL) -/

/-- Deleting a Category row: the row leaves the category table and, by
on_delete=SET_NULL on Movie.category, every movie pointing at it gets
category null; no movie row is touched otherwise. -/
def deleteCategoryRun (cid : Nat) (cats : List Category)
    (movies : List Movie) : List Category × List Movie :=
  (cats.filter fun c => c.id != cid,
   movies.map fun m =>
     if m.category == some cid then { m with category := none } else m)

/-- Claim C8: deleting a category keeps every movie (the movie table keeps
its length), leaves no movie pointing at the deleted category, and maps
each stored movie to a survivor with all other fields unchanged and the
category field nulled exactly when it pointed at the deleted category. -/
theorem deleteCategoryRun_spec (cid : Nat) (cats : List Category)
    (movies : List Movie) :
    ((deleteCategoryRun cid cats movies).2.length = movies.length) ∧
    (∀ m2 ∈ (deleteCategoryRun cid cats movies).2, m2.category ≠ some cid) ∧
    (∀ m ∈ movies, ∃ m2 ∈ (deleteCategoryRun cid cats movies).2,
      m2.id = m.id ∧ m2.title = m.title ∧ m2.slug = m.slug ∧
      m2.poster = m.poster ∧ m2.description = m.description ∧
      m2.release_date = m.release_date ∧ m2.actors = m.actors ∧
      m2.ratingTenths = m.ratingTenths ∧ m2.trailer_url = m.trailer_url ∧
      m2.created_by = m.created_by ∧ m2.created_at = m.created_at ∧
      m2.category = (if m.category = some cid then none else m.category)) := by
  refine ⟨List.length_map _ _, ?_, ?_⟩
  · intro m2 hm2
    rcases List.mem_map.mp hm2 with ⟨m, -, rfl⟩
    by_cases hc : m.category = some cid
    · rw [if_pos (by simp [hc])]
      intro h
      exact Option.noConfusion h
    · rw [if_neg (by simp [hc])]
      exact hc
  · intro m hm
    by_cases hc : m.category = some cid
    · refine ⟨{ m with category := none },
        List.mem_map.mpr ⟨m, hm, by rw [if_pos (by simp [hc])]⟩, ?_⟩
      simp [hc]
    · refine ⟨m, List.mem_map.mpr ⟨m, hm, by rw [if_neg (by simp [hc])]⟩, ?_⟩
      simp [hc]

/-! ## Movie deletion cascade (Comment.movie and Favorite.movie CASCADE) -/

/-- Claim C9: a successful movie deletion (owner acting) leaves exactly
the comments and favorites of other movies: a comment or favorite is in
the resulting store exactly when it was there before and does not
reference the deleted movie, and the movie itself is gone. -/
theorem movieDeleteRun_cascades (u : User) (slug : String)
    (movies : List Movie) (comments : List Comment)
    (favorites : List Favorite) (m : Movie)
    (hm : movies.find? (fun x => x.slug == slug) = some m)
    (how : m.created_by = u.id) :
    (∀ c : Comment,
      c ∈ (movieDeleteRun (some u) slug movies comments favorites).2.2.1 ↔
        c ∈ comments ∧ c.movie ≠ m.id) ∧
    (∀ f : Favorite,
      f ∈ (movieDeleteRun (some u) slug movies comments favorites).2.2.2 ↔
        f ∈ favorites ∧ f.movie ≠ m.id) ∧
    (∀ x : Movie,
      x ∈ (movieDeleteRun (some u) slug movies comments favorites).2.1 ↔
        x ∈ movies ∧ x.id ≠ m.id) := by
  have ho : movieOwnerTest m u = true := by simp [movieOwnerTest, how]
  refine ⟨?_, ?_, ?_⟩ <;> intro y <;>
    simp [movieDeleteRun, hm, ho, List.mem_filter, bne_iff_ne]

theorem movieDeleteRun_cascades_witness :
    (∀ c : Comment,
      c ∈ (movieDeleteRun (some alice) "inception" [inceptionMovie]
        [demoComment] [demoFavorite]).2.2.1 ↔
        c ∈ [demoComment] ∧ c.movie ≠ inceptionMovie.id) ∧
    (∀ f : Favorite,
      f ∈ (movieDeleteRun (some alice) "inception" [inceptionMovie]
        [demoComment] [demoFavorite]).2.2.2 ↔
        f ∈ [demoFavorite] ∧ f.movie ≠ inceptionMovie.id) ∧
    (∀ x : Movie,
      x ∈ (movieDeleteRun (some alice) "inception" [inceptionMovie]
        [demoComment] [demoFavorite]).2.1 ↔
        x ∈ [inceptionMovie] ∧ x.id ≠ inceptionMovie.id) :=
  movieDeleteRun_cascades alice "inception" [inceptionMovie] [demoComment]
    [demoFavorite] inceptionMovie (by decide) rfl

end MoviesApp
